import Mathlib

/-!
Verification of the naval helm command pipeline.

Shallow embedding of the command normalization-and-interpretation pipeline:

* `src/app/api/process-command/route.ts` — the command submission boundary
  (`POST`): structural validation of the interpreter output, naval course
  formatting of the confirmation string, and the error paths.
* `src/components/NavalHelmInterface.tsx` — the client pipeline
  (`processCommand`, transcript handling, `playAudioResponse`), the ship
  state merge, the bounded command log, and the display helpers
  (`getSpeedText`, engine telegraph order).

External collaborators (the LLM completion service, speech capture, the
audio backends) are modelled by their observable outcomes: each network
call is a parameter carrying the result the collaborator returned.
-/

set_option maxRecDepth 10000

namespace NavalHelm

/-! ## Naval vocabulary model (`NAVAL_PATTERNS`, `NAVAL_NUMBERS`) -/

/-- Digit-to-naval-word table, `NAVAL_NUMBERS` in `route.ts` (lines 39-50).
Indices outside 0-9 yield `"undefined"`, mirroring a failed JS object lookup
as it is rendered by string interpolation / `join`. -/
def NAVAL_NUMBERS : Nat → String
  | 0 => "zero"
  | 1 => "one"
  | 2 => "two"
  | 3 => "three"
  | 4 => "four"
  | 5 => "five"
  | 6 => "six"
  | 7 => "seven"
  | 8 => "eight"
  | 9 => "niner"
  | _ => "undefined"

/-- Ahead speed-name vocabulary, `NAVAL_PATTERNS.SPEED.AHEAD`
(both source files carry the same table). -/
def AHEAD_TABLE : List (String × Int) :=
  [("emergency flank", 110), ("flank", 100), ("full", 90), ("standard", 75),
   ("two thirds", 67), ("half", 50), ("one third", 33), ("slow", 25),
   ("dead slow", 10), ("stop", 0)]

/-- Astern speed-name vocabulary, `NAVAL_PATTERNS.SPEED.ASTERN`. -/
def ASTERN_TABLE : List (String × Int) :=
  [("emergency full", -100), ("full", -75), ("half", -50), ("slow", -25),
   ("stop", 0)]

/-! ## Naval formatter (`formatNavalCourse`, `getSpeedText`, telegraph) -/

/-- JS `String.prototype.padStart(3, '0')`. -/
def padStart3 (s : String) : String :=
  String.mk (List.replicate (3 - s.length) '0') ++ s

/-- One character of the course string mapped through `NAVAL_NUMBERS`:
`NAVAL_NUMBERS[parseInt(digit)]`; a non-digit character gives `NaN` and
hence the JS `undefined`, rendered `"undefined"` by `join`. -/
def digitWord (d : Char) : String :=
  if d.isDigit then NAVAL_NUMBERS (d.toNat - 48) else "undefined"

/-- `formatNavalCourse` from `route.ts` (lines 52-57):
`course.toString().padStart(3, '0').split('').map(d => NAVAL_NUMBERS[parseInt(d)]).join(' ')`. -/
def formatNavalCourse (course : Int) : String :=
  String.intercalate " " ((padStart3 (Int.repr course)).data.map digitWord)

/-- `getSpeedText` from `NavalHelmInterface.tsx` (lines 447-457): the
displayed speed bucket name. -/
def getSpeedText (speed : Int) : String :=
  if speed ≥ 100 then "FLANK"
  else if speed ≥ 90 then "FULL"
  else if speed ≥ 75 then "STANDARD"
  else if speed ≥ 67 then "TWO THIRDS"
  else if speed ≥ 50 then "HALF"
  else if speed ≥ 33 then "ONE THIRD"
  else if speed ≥ 25 then "SLOW"
  else if speed ≥ 10 then "DEAD SLOW"
  else "STOP"

/-- The engine telegraph "Order" line of `NavalHelmInterface.tsx`
(lines 313-318): `ALL AHEAD` with `getSpeedText(speed)` for positive speed,
`ALL ASTERN` with `getSpeedText(Math.abs(speed))` for negative speed,
otherwise `ALL STOP`. -/
def telegraphOrder (speed : Int) : String :=
  if speed > 0 then "ALL AHEAD " ++ getSpeedText speed
  else if speed < 0 then "ALL ASTERN " ++ getSpeedText |speed|
  else "ALL STOP"

/-- The threshold table realized by `getSpeedText`'s if-chain, listed in the
order the code tests it (strictly descending); values below every threshold
fall through to `"STOP"`. -/
def SPEED_DISPLAY_TABLE : List (Int × String) :=
  [(100, "FLANK"), (90, "FULL"), (75, "STANDARD"), (67, "TWO THIRDS"),
   (50, "HALF"), (33, "ONE THIRD"), (25, "SLOW"), (10, "DEAD SLOW")]

/-- First entry of a descending threshold table whose threshold is at most
`v`; on a descending table this is the highest threshold not exceeding `v`. -/
def firstLE (t : List (Int × String)) (v : Int) : String :=
  match t with
  | [] => "STOP"
  | e :: rest => if e.1 ≤ v then e.2 else firstLE rest v

/-- Modelled from the claim (C6) for refutation: the bucket name demanded by
the claim, namely the name from the matching vocabulary table (ahead for
positive, astern for negative) whose value has the highest magnitude not
exceeding `|p|`. -/
def bestThresholdLE (table : List (String × Int)) (v : Int) :
    Option (String × Int) :=
  table.foldl
    (fun acc e =>
      if |e.2| ≤ v then
        match acc with
        | none => some e
        | some b => if |e.2| > |b.2| then some e else some b
      else acc)
    none

/-- Modelled from the claim (C6) for refutation: the claimed displayed
bucket name for a speed percent `p`. -/
def claimedSpeedName (p : Int) : String :=
  if p > 0 then ((bestThresholdLE AHEAD_TABLE |p|).map Prod.fst).getD ""
  else if p < 0 then ((bestThresholdLE ASTERN_TABLE |p|).map Prod.fst).getD ""
  else "stop"

/-! ## Confirmation-string course rewrite (`route.ts` lines 247-254)

JS: `interpretation.response.replace(/course (\d{3})/, `course ${formatNavalCourse(course)}`)`.
The regex is not global, so `String.prototype.replace` rewrites only the
leftmost match; the replacement text is derived from `stateUpdates.course`,
not from the matched digits. -/

/-- Whether the regex `/course (\d{3})/` matches at the head of the
character list: the literal `course `, a space, then three digits. -/
def courseRefAt : List Char → Bool
  | 'c' :: 'o' :: 'u' :: 'r' :: 's' :: 'e' :: ' ' :: d1 :: d2 :: d3 :: _ =>
      d1.isDigit && d2.isDigit && d3.isDigit
  | _ => false

/-- Whether `/course (\d{3})/` matches anywhere in the list. -/
def hasCourseRef : List Char → Bool
  | [] => false
  | c :: cs => courseRefAt (c :: cs) || hasCourseRef cs

/-- JS non-global `replace`: rewrite the leftmost match of
`/course (\d{3})/` with `course ` followed by `repl` (the naval words for
the `stateUpdates` course value); everything after the 10 matched
characters is kept verbatim. -/
def replaceFirstCourseRef (repl : List Char) : List Char → List Char
  | [] => []
  | c :: cs =>
    if courseRefAt (c :: cs) then
      'c' :: 'o' :: 'u' :: 'r' :: 's' :: 'e' :: ' ' :: (repl ++ (c :: cs).drop 10)
    else
      c :: replaceFirstCourseRef repl cs

/-! ## Command submission boundary (`route.ts` `POST`) -/

/-- JSON value of one `stateUpdates` field as the interpreter returns it. -/
inductive Jval where
  | num (n : Int)
  | null
deriving DecidableEq, Repr

/-- The interpreter's `stateUpdates` object. A field of `none` models a key
that is entirely absent from the JSON (JS `undefined`); `some .null` models
an explicit JSON `null`. The JS strict comparison `!== null` distinguishes
the two: it is false only on `some .null`. -/
structure StateUpdates where
  rudder : Option Jval
  course : Option Jval
  speed : Option Jval
deriving DecidableEq, Repr

/-- The parsed interpreter completion. `stateUpdates := none` models a
missing or null `stateUpdates` key (falsy in the JS structure check);
`response := none` a missing confirmation string. -/
structure Interpretation where
  stateUpdates : Option StateUpdates
  response : Option String
deriving DecidableEq, Repr

/-- Payload of a 200 response of `POST`:
`{...interpretation, originalCommand, correctedCommand}`. -/
structure RouteSuccess where
  stateUpdates : StateUpdates
  response : String
  originalCommand : String
  correctedCommand : String
deriving DecidableEq, Repr

/-- Result of `POST`: a JSON payload with HTTP 200, or an error body with
the given status. -/
inductive RouteResponse where
  | ok (payload : RouteSuccess)
  | err (status : Nat) (message : String)
deriving DecidableEq, Repr

/-- Course post-processing of `route.ts` lines 247-254. The guard is
`stateUpdates?.course !== null`, so an explicit `null` skips the rewrite; a
numeric course rewrites the leftmost 3-digit course reference; a missing
(`undefined`) course falls into `formatNavalCourse(undefined)`, whose
`course.toString()` throws a `TypeError` that the surrounding catch turns
into a 500. -/
def applyCourseFormat (u : StateUpdates) (resp : String) : Except String String :=
  match u.course with
  | some Jval.null => .ok resp
  | some (Jval.num c) =>
      .ok (String.mk (replaceFirstCourseRef (formatNavalCourse c).data resp.data))
  | none => .error "Cannot read properties of undefined (reading toString)"

/-- Structural validation plus course post-processing of `route.ts`
lines 241-254: `!interpretation.stateUpdates || !interpretation.response`
throws `Invalid interpretation structure` (an empty response string is
falsy too), then the course rewrite of `applyCourseFormat` runs. -/
def validateAndFormat (i : Interpretation) :
    Except String (StateUpdates × String) :=
  match i.stateUpdates, i.response with
  | some u, some r =>
      if r = "" then .error "Invalid interpretation structure"
      else
        match applyCourseFormat u r with
        | .ok r2 => .ok (u, r2)
        | .error e => .error e
  | _, _ => .error "Invalid interpretation structure"

/-- JS `String.prototype.trim` (the `.trim()` on the corrected command):
strip whitespace from both ends. -/
def jsTrim (s : String) : String :=
  String.mk
    (((s.data.dropWhile Char.isWhitespace).reverse.dropWhile
      Char.isWhitespace).reverse)

/-- Request body of `POST`; `command := none` models a missing key and the
empty string is falsy, both rejected with 400. (`currentState` is passed
through to the collaborator prompt only and does not affect control flow.) -/
structure RequestBody where
  command : Option String
deriving DecidableEq, Repr

/-- The `POST` handler of `route.ts` (lines 59-276). The two collaborator
calls are modelled by their observable results: `correctionContent` is the
correction completion's message content (`none` when absent, falsy when
empty), and `interpretationParse` the interpretation completion after JSON
extraction (`none` covers a missing completion and a parse failure). -/
def routePOST (hasApiKey : Bool) (body : Option RequestBody)
    (correctionContent : Option String)
    (interpretationParse : Option Interpretation) : RouteResponse :=
  if hasApiKey = false then
    .err 500 "Missing GROQ_API_KEY environment variable"
  else
    match body with
    | none => .err 400 "Invalid request body"
    | some b =>
      match b.command with
      | none => .err 400 "Command is required"
      | some cmd =>
        if cmd = "" then .err 400 "Command is required"
        else
          match correctionContent with
          | none => .err 500 "Failed to process command: No correction response generated"
          | some cc =>
            if cc = "" then
              .err 500 "Failed to process command: No correction response generated"
            else
              match interpretationParse with
              | none => .err 500 "Failed to process command: Invalid interpretation response format"
              | some i =>
                match validateAndFormat i with
                | .error e => .err 500 ("Failed to process command: " ++ e)
                | .ok (u, r) =>
                    .ok { stateUpdates := u, response := r,
                          originalCommand := cmd, correctedCommand := jsTrim cc }

/-! ## Ship state machine and client pipeline (`NavalHelmInterface.tsx`) -/

/-- Authoritative ship state, `shipState` in `NavalHelmInterface.tsx`
(lines 76-80), created with all-zero values. -/
structure ShipState where
  rudder : Int
  course : Int
  speed : Int
deriving DecidableEq, Repr

/-- Per-field state delta as the client reads it from a successful
submission. A field of `none` models the JSON `null` the interpreter
contract uses as the "no change requested" marker (the client merge guard
is `!== null`). -/
structure StateDelta where
  rudder : Option Int
  course : Option Int
  speed : Option Int
deriving DecidableEq, Repr

/-- The merge of `processCommand` (`NavalHelmInterface.tsx` lines 208-219):
copy the state, then assign each field whose delta field is not `null`. -/
def mergeState (s : ShipState) (d : StateDelta) : ShipState :=
  { rudder := match d.rudder with | some v => v | none => s.rudder
    course := match d.course with | some v => v | none => s.course
    speed := match d.speed with | some v => v | none => s.speed }

/-- Body of a submission response as the client reads it:
`error`, `correctedCommand` (falsy values fall back to the raw command),
`stateUpdates` (`none` models a missing/null object, skipping the merge),
and the confirmation `response`. -/
structure ClientResult where
  error : Option String
  correctedCommand : Option String
  stateUpdates : Option StateDelta
  response : String
deriving DecidableEq, Repr

/-- Observable outcome of the `fetch` to `/api/process-command`: the fetch
itself rejected, or an HTTP response with its `ok` flag and parsed body. -/
inductive FetchOutcome where
  | netError
  | http (ok : Bool) (result : ClientResult)
deriving DecidableEq, Repr

/-- Whether the awaited `playAudioResponse` resolved or rejected. -/
inductive AudioResult where
  | ok
  | failed
deriving DecidableEq, Repr

/-- Component state owned by `NavalHelmInterface`: ship state, last
command, bounded command log, on-screen response, the single-flight gate
flag `processingCommand`, and the toast notifications issued so far. -/
structure AppState where
  shipState : ShipState
  lastCommand : String
  commandLog : List String
  screenResponse : String
  processing : Bool
  toasts : List String
deriving DecidableEq, Repr

/-- `processCommand` (`NavalHelmInterface.tsx` lines 174-235) as a step
function on the component state. The gate check `if (processingCommand)
return` runs first; the `finally` block clears the gate on every completion
path, so every branch below ends with `processing := false`. Failures are
caught and surfaced as a `Command Error` toast; on success the corrected
command is logged (capped at 5 entries), the delta merged, the response
shown, and the audio awaited (whose rejection only adds a toast). -/
def runProcessCommand (st : AppState) (command : String)
    (outcome : FetchOutcome) (audio : AudioResult) : AppState :=
  if st.processing then st
  else
    match outcome with
    | .netError =>
        { st with toasts := st.toasts ++ ["Command Error"], processing := false }
    | .http ok result =>
        if ok = false then
          { st with toasts := st.toasts ++ ["Command Error"], processing := false }
        else
          match result.error with
          | some _ =>
              { st with toasts := st.toasts ++ ["Command Error"], processing := false }
          | none =>
              let corrected :=
                match result.correctedCommand with
                | some c => if c = "" then command else c
                | none => command
              let merged :=
                match result.stateUpdates with
                | some d => mergeState st.shipState d
                | none => st.shipState
              let base :=
                { st with
                    lastCommand := corrected
                    commandLog := (corrected :: st.commandLog).take 5
                    shipState := merged
                    screenResponse := result.response }
              match audio with
              | .ok => { base with processing := false }
              | .failed =>
                  { base with toasts := base.toasts ++ ["Command Error"],
                              processing := false }

/-- The transcript effect (`NavalHelmInterface.tsx` lines 238-248): a newly
completed transcript is dropped when it is empty or while the single-flight
gate is held (`if (!transcript || processingCommand) return`); otherwise it
is submitted through `processCommand`. Nothing is queued: a dropped
transcript leaves the component state untouched. -/
def submitTranscript (st : AppState) (transcript : String)
    (outcome : FetchOutcome) (audio : AudioResult) : AppState :=
  if transcript = "" ∨ st.processing then st
  else runProcessCommand st transcript outcome audio

/-! ## Feedback dispatcher (`playAudioResponse`, lines 98-172) -/

/-- Observable outcome of the primary (ElevenLabs) channel attempt. -/
inductive PrimaryResult where
  | ok
  | httpError (status : Nat)
  | emptyPayload
  | decodeError
deriving DecidableEq, Repr

/-- Observable outcome of one `playAudioResponse` dispatch. -/
inductive AudioOutcome where
  | skipped
  | playedPrimary (text : String)
  | playedSecondary (text : String) (voice : Option String)
  | failed
deriving DecidableEq, Repr

/-- JS `String.prototype.includes`. -/
def strIncludes (hay needle : String) : Bool :=
  hay.data.tails.any fun t => needle.data.isPrefixOf t

/-- The voice-quality heuristic of `playAudioResponse` (lines 150-154):
`voice.name.includes('Daniel') || includes('Premium') || includes('Natural')`. -/
def isPreferredVoice (name : String) : Bool :=
  strIncludes name "Daniel" || strIncludes name "Premium" || strIncludes name "Natural"

/-- `playAudioResponse` (`NavalHelmInterface.tsx` lines 98-172). When
muted it is a no-op. The channel is chosen by configuration: with the
ElevenLabs key configured the primary channel is used and any of its
failures is caught into a `toast` and a rejected promise — the secondary
channel is never attempted; only without the key does the browser
speech-synthesis branch run, picking the first voice matching the quality
heuristic (`voices.find`). -/
def playAudioResponse (isMuted configured : Bool) (text : String)
    (primary : PrimaryResult) (voices : List String) : AudioOutcome :=
  if isMuted then .skipped
  else if configured then
    match primary with
    | .ok => .playedPrimary text
    | _ => .failed
  else .playedSecondary text (voices.find? isPreferredVoice)

/-! ## Theorems -/

/-- C2: the merge replaces exactly those ShipState fields whose delta field
is present and retains every field whose delta field is absent (the
interpreter contract's `null`, distinct from an explicit zero); merging an
all-absent delta is the identity, and a rudder-only delta leaves course and
speed unchanged while an explicit zero is applied like any other value. -/
theorem mergeState_claim :
    (∀ (s : ShipState) (d : StateDelta),
        (mergeState s d).rudder = d.rudder.getD s.rudder ∧
        (mergeState s d).course = d.course.getD s.course ∧
        (mergeState s d).speed = d.speed.getD s.speed) ∧
    (∀ s : ShipState, mergeState s ⟨none, none, none⟩ = s) ∧
    (∀ (s : ShipState) (r : Int),
        mergeState s ⟨some r, none, none⟩ = ⟨r, s.course, s.speed⟩) ∧
    (∀ s : ShipState, mergeState s ⟨some 0, some 0, some 0⟩ = ⟨0, 0, 0⟩) := by
  refine ⟨?_, ?_, ?_, ?_⟩
  · intro s d
    rcases d with ⟨r, c, p⟩
    cases r <;> cases c <;> cases p <;> simp [mergeState, Option.getD]
  · intro s
    rfl
  · intro s r
    rfl
  · intro s
    rfl

/-- C7: for every integer course `c` in `[0, 359]`, `formatNavalCourse c`
is the three pronunciation words of the zero-padded digits of `c` joined by
single spaces, each digit mapped independently through `NAVAL_NUMBERS`; no
table word contains a space, so the result is exactly 3 words; in
particular 9 gives `zero zero niner` and 180 gives `one eight zero`. -/
theorem formatCourse_claim :
    (∀ c : Nat, c < 360 →
        formatNavalCourse (c : Int) =
          NAVAL_NUMBERS (c / 100) ++ " " ++ NAVAL_NUMBERS (c / 10 % 10) ++
            " " ++ NAVAL_NUMBERS (c % 10)) ∧
    (∀ d : Nat, d < 10 → (NAVAL_NUMBERS d).data.all (fun ch => ch != ' ') = true) ∧
    formatNavalCourse 9 = "zero zero niner" ∧
    formatNavalCourse 180 = "one eight zero" := by
  refine ⟨?_, ?_, ?_, ?_⟩ <;> decide

/-- Witness for C7 at `c = 180`. -/
theorem formatCourse_claim_witness :
    formatNavalCourse ((180 : Nat) : Int) =
      NAVAL_NUMBERS (180 / 100) ++ " " ++ NAVAL_NUMBERS (180 / 10 % 10) ++
        " " ++ NAVAL_NUMBERS (180 % 10) :=
  formatCourse_claim.1 180 (by decide)

/-- Helper: every completion path of `runProcessCommand` leaves the
single-flight gate cleared. -/
theorem runProcessCommand_clears_gate (st : AppState) (cmd : String)
    (o : FetchOutcome) (a : AudioResult) (h : st.processing = false) :
    (runProcessCommand st cmd o a).processing = false := by
  cases o with
  | netError => simp [runProcessCommand, h]
  | http ok r =>
    cases ok <;> rcases herr : r.error with _ | msg <;> cases a <;>
      simp [runProcessCommand, h, herr]

/-- C3: while the single-flight gate is held, a newly arrived transcript is
discarded with no observable effect at all (the state, hence ship state,
log, and feedback, is returned untouched — nothing is queued); and every
completion path of the pipeline (network failure, non-2xx, error payload,
success, audio failure) ends with the gate cleared, so no failure leaves it
permanently held. -/
theorem singleFlight_claim :
    (∀ (st : AppState) (t : String) (o : FetchOutcome) (a : AudioResult),
        st.processing = true → submitTranscript st t o a = st) ∧
    (∀ (st : AppState) (cmd : String) (o : FetchOutcome) (a : AudioResult),
        st.processing = false →
        (runProcessCommand st cmd o a).processing = false) ∧
    (∀ (st : AppState) (t : String) (o : FetchOutcome) (a : AudioResult),
        (submitTranscript st t o a).processing = false ∨
          submitTranscript st t o a = st) := by
  refine ⟨?_, ?_, ?_⟩
  · intro st t o a h
    simp [submitTranscript, h]
  · intro st cmd o a h
    exact runProcessCommand_clears_gate st cmd o a h
  · intro st t o a
    by_cases hg : t = "" ∨ st.processing
    · right
      simp [submitTranscript, hg]
    · left
      rw [not_or] at hg
      rw [submitTranscript, if_neg (by rw [not_or]; exact hg)]
      exact runProcessCommand_clears_gate st t o a (by
        rcases hg with ⟨-, hp⟩
        exact Bool.not_eq_true _ ▸ Bool.of_not_eq_true hp)

/-- Witness for C3 on a concrete held-gate state and a concrete cleared
state. -/
theorem singleFlight_claim_witness :
    submitTranscript ⟨⟨1, 2, 3⟩, "x", ["a"], "r", true, []⟩ "helm" .netError .ok =
      ⟨⟨1, 2, 3⟩, "x", ["a"], "r", true, []⟩ ∧
    (runProcessCommand ⟨⟨1, 2, 3⟩, "x", ["a"], "r", false, []⟩ "helm"
        .netError .ok).processing = false :=
  ⟨singleFlight_claim.1 ⟨⟨1, 2, 3⟩, "x", ["a"], "r", true, []⟩ "helm" .netError .ok rfl,
   singleFlight_claim.2.1 ⟨⟨1, 2, 3⟩, "x", ["a"], "r", false, []⟩ "helm" .netError .ok rfl⟩

/-- C4: every submission whose result is a non-2xx response, a rejected
fetch, or a body carrying an `error` field leaves ShipState and the command
log exactly as they were, surfaces one `Command Error` toast, and completes
with the gate cleared (no crash: the pipeline is a total step function);
and every error the submission boundary produces — missing key, bad body,
missing command, correction failure, interpretation parse failure, missing
required fields — carries a non-2xx status (400 or 500). -/
theorem failureNoEffect_claim :
    (∀ (st : AppState) (cmd : String) (r : ClientResult) (a : AudioResult),
        st.processing = false →
        runProcessCommand st cmd (.http false r) a =
          { st with toasts := st.toasts ++ ["Command Error"], processing := false }) ∧
    (∀ (st : AppState) (cmd msg : String) (r : ClientResult) (ok : Bool)
        (a : AudioResult),
        st.processing = false → r.error = some msg →
        runProcessCommand st cmd (.http ok r) a =
          { st with toasts := st.toasts ++ ["Command Error"], processing := false }) ∧
    (∀ (st : AppState) (cmd : String) (a : AudioResult),
        st.processing = false →
        runProcessCommand st cmd .netError a =
          { st with toasts := st.toasts ++ ["Command Error"], processing := false }) ∧
    (∀ (hasKey : Bool) (body : Option RequestBody) (cc : Option String)
        (ip : Option Interpretation) (s : Nat) (m : String),
        routePOST hasKey body cc ip = .err s m → s = 400 ∨ s = 500) := by
  refine ⟨?_, ?_, ?_, ?_⟩
  · intro st cmd r a h
    simp [runProcessCommand, h]
  · intro st cmd msg r ok a h herr
    cases ok <;> simp [runProcessCommand, h, herr]
  · intro st cmd a h
    simp [runProcessCommand, h]
  · intro hasKey body cc ip s m h
    unfold routePOST at h
    repeat' split at h
    all_goals first
      | (injection h with h1 h2; omega)
      | simp at h

/-- Witness for C4 on a concrete failing submission and a concrete route
error. -/
theorem failureNoEffect_claim_witness :
    runProcessCommand ⟨⟨0, 0, 0⟩, "", [], "", false, []⟩ "helm"
        (.http false ⟨none, none, none, "r"⟩) .ok =
      ⟨⟨0, 0, 0⟩, "", [], "", false, ["Command Error"]⟩ ∧
    ((400 : Nat) = 400 ∨ (400 : Nat) = 500) :=
  ⟨failureNoEffect_claim.1 ⟨⟨0, 0, 0⟩, "", [], "", false, []⟩ "helm"
      ⟨none, none, none, "r"⟩ .ok rfl,
   failureNoEffect_claim.2.2.2 true none (some "c") none 400 "Invalid request body"
     (by decide)⟩

/-- C9: on a successfully interpreted command the corrected command text is
prepended to the command log and the log is truncated to 5 entries,
most-recent-first; a log already holding 5 entries silently loses its
oldest entry. -/
theorem commandLog_claim :
    (∀ (st : AppState) (cmd corrected resp : String) (d : Option StateDelta)
        (a : AudioResult),
        st.processing = false → corrected ≠ "" →
        (runProcessCommand st cmd (.http true ⟨none, some corrected, d, resp⟩)
            a).commandLog =
          (corrected :: st.commandLog).take 5) ∧
    (∀ (entry : String) (log : List String),
        ((entry :: log).take 5).length ≤ 5) ∧
    (∀ (entry : String) (log : List String), log.length ≤ 4 →
        (entry :: log).take 5 = entry :: log) ∧
    (∀ (entry : String) (log : List String), log.length = 5 →
        (entry :: log).take 5 = entry :: log.dropLast) := by
  refine ⟨?_, ?_, ?_, ?_⟩
  · intro st cmd corrected resp d a h hc
    cases a <;> simp [runProcessCommand, h, hc]
  · intro entry log
    simp [List.length_take]
  · intro entry log h
    simp [List.take_succ_cons, List.take_of_length_le h]
  · intro entry log h
    rw [List.take_succ_cons, List.dropLast_eq_take, h]

/-- Witness for C9 on a full 5-entry log: the oldest entry `e5` is evicted. -/
theorem commandLog_claim_witness :
    (runProcessCommand ⟨⟨0, 0, 0⟩, "", ["e1", "e2", "e3", "e4", "e5"], "", false, []⟩
        "helm" (.http true ⟨none, some "Helm, left 5 degrees rudder", none, "aye"⟩)
        .ok).commandLog =
      ("Helm, left 5 degrees rudder" :: ["e1", "e2", "e3", "e4", "e5"]).take 5 ∧
    ("Helm, left 5 degrees rudder" :: ["e1", "e2", "e3", "e4", "e5"]).take 5 =
      "Helm, left 5 degrees rudder" :: ["e1", "e2", "e3", "e4", "e5"].dropLast :=
  ⟨commandLog_claim.1 ⟨⟨0, 0, 0⟩, "", ["e1", "e2", "e3", "e4", "e5"], "", false, []⟩
      "helm" "Helm, left 5 degrees rudder" "aye" none .ok rfl (by decide),
   commandLog_claim.2.2.2 "Helm, left 5 degrees rudder" ["e1", "e2", "e3", "e4", "e5"]
     rfl⟩

/-- C10: an interpreter response that passes the structure validation but
omits the `course` key entirely (`undefined`, not an explicit `null`) makes
the course post-processing apply the course formatter to the missing value
and throw, failing the whole request with a 500; no structurally valid
response with an absent course field can succeed at the submission
boundary, while an explicit `null` course does succeed. -/
theorem undefinedCourse_claim :
    (∀ (u : StateUpdates) (r : String), u.course = none → r ≠ "" →
        validateAndFormat ⟨some u, some r⟩ =
          .error "Cannot read properties of undefined (reading toString)") ∧
    (∀ (u : StateUpdates) (r cmd cc : String),
        u.course = none → r ≠ "" → cmd ≠ "" → cc ≠ "" →
        routePOST true (some ⟨some cmd⟩) (some cc) (some ⟨some u, some r⟩) =
          .err 500
            "Failed to process command: Cannot read properties of undefined (reading toString)") ∧
    (∀ (i : Interpretation) (p : StateUpdates × String),
        validateAndFormat i = .ok p →
        ∃ u, i.stateUpdates = some u ∧ u.course ≠ none) ∧
    validateAndFormat ⟨some ⟨none, some Jval.null, none⟩, some "aye"⟩ =
      .ok (⟨none, some Jval.null, none⟩, "aye") := by
  refine ⟨?_, ?_, ?_, rfl⟩
  · intro u r hc hr
    simp [validateAndFormat, applyCourseFormat, hc, hr]
  · intro u r cmd cc hc hr hcmd hcc
    simp [routePOST, validateAndFormat, applyCourseFormat, hc, hr, hcmd, hcc]
  · intro i p h
    rcases i with ⟨su, resp⟩
    cases su with
    | none => simp [validateAndFormat] at h
    | some u =>
      cases resp with
      | none => simp [validateAndFormat] at h
      | some r =>
        refine ⟨u, rfl, ?_⟩
        intro hc
        by_cases hr : r = "" <;>
          simp [validateAndFormat, applyCourseFormat, hc, hr] at h

/-- Witness for C10: the concrete response `{stateUpdates: {rudder: -20},
response: "aye"}` (course key absent) fails the whole request with 500. -/
theorem undefinedCourse_claim_witness :
    routePOST true (some ⟨some "helm left 20"⟩) (some "Helm, left 20 degrees rudder")
        (some ⟨some ⟨some (Jval.num (-20)), none, none⟩, some "aye"⟩) =
      .err 500
        "Failed to process command: Cannot read properties of undefined (reading toString)" :=
  undefinedCourse_claim.2.1 ⟨some (Jval.num (-20)), none, none⟩ "aye"
    "helm left 20" "Helm, left 20 degrees rudder" rfl (by decide) (by decide)
    (by decide)

/-- C8 as stated is false: the course rewrite uses the non-global regex
`/course (\d{3})/`, so only the leftmost 3-digit course reference is
replaced. Concretely, with `stateUpdates.course = 90` and confirmation
`"steady on course 123 then course 456"`, the processed confirmation still
contains the untouched reference `course 456` (and the first reference was
rewritten to the pronunciation of 90, not of the digits 123). -/
theorem replaceAll_counterexample :
    validateAndFormat
        ⟨some ⟨some Jval.null, some (Jval.num 90), some Jval.null⟩,
         some "steady on course 123 then course 456"⟩ =
      .ok (⟨some Jval.null, some (Jval.num 90), some Jval.null⟩,
           "steady on course zero niner zero then course 456") ∧
    hasCourseRef ("steady on course zero niner zero then course 456").data = true ∧
    strIncludes "steady on course zero niner zero then course 456" "course 456" = true ∧
    formatNavalCourse 123 = "one two three" := by
  refine ⟨rfl, by decide, by decide, by decide⟩

/-- C8 amended: the rewrite touches exactly the leftmost occurrence of a
3-digit course reference — a confirmation without any reference is returned
unchanged, and when the string splits as `pre ++ m` with no reference
starting inside `pre` and `m` starting with one, precisely the 10 matched
characters of `m` are replaced by `course ` followed by the replacement
words while `pre` and the rest of `m` (later occurrences included) are kept
verbatim; in the pipeline the replacement words are the naval pronunciation
of the `stateUpdates` course value, not of the digits found in the text. -/
theorem replaceFirst_claim :
    (∀ (repl l : List Char), hasCourseRef l = false →
        replaceFirstCourseRef repl l = l) ∧
    (∀ (repl pre m : List Char),
        (∀ i, i < pre.length → courseRefAt ((pre ++ m).drop i) = false) →
        courseRefAt m = true →
        replaceFirstCourseRef repl (pre ++ m) =
          pre ++ ('c' :: 'o' :: 'u' :: 'r' :: 's' :: 'e' :: ' ' ::
            (repl ++ m.drop 10))) ∧
    (∀ (u : StateUpdates) (c : Int) (r : String),
        u.course = some (Jval.num c) → r ≠ "" →
        validateAndFormat ⟨some u, some r⟩ =
          .ok (u, String.mk (replaceFirstCourseRef (formatNavalCourse c).data r.data))) := by
  refine ⟨?_, ?_, ?_⟩
  · intro repl l h
    induction l with
    | nil => rfl
    | cons c cs ih =>
      rw [hasCourseRef, Bool.or_eq_false_iff] at h
      rw [replaceFirstCourseRef, if_neg (by simp [h.1]), ih h.2]
  · intro repl pre m hpre hm
    induction pre with
    | nil =>
      cases m with
      | nil => simp [courseRefAt] at hm
      | cons c cs =>
        simp only [List.nil_append]
        rw [replaceFirstCourseRef, if_pos hm]
    | cons p ps ih =>
      have h0 : courseRefAt (p :: (ps ++ m)) = false := by
        have := hpre 0 (by simp)
        simpa using this
      simp only [List.cons_append]
      rw [replaceFirstCourseRef, if_neg (by simp only [h0]; simp)]
      congr 1
      exact ih fun i hi => by
        have := hpre (i + 1) (by simpa using Nat.succ_lt_succ hi)
        simpa using this
  · intro u c r hc hr
    simp [validateAndFormat, applyCourseFormat, hc, hr]

/-- Witness for C8 amended: with `pre = "on "`, the reference at `m =
"course 123 and course 456"` is the leftmost one and only it is rewritten. -/
theorem replaceFirst_claim_witness :
    replaceFirstCourseRef ['Z'] (("on ").data ++ ("course 123 and course 456").data) =
      ("on ").data ++ ('c' :: 'o' :: 'u' :: 'r' :: 's' :: 'e' :: ' ' ::
        (['Z'] ++ ("course 123 and course 456").data.drop 10)) :=
  replaceFirst_claim.2.1 ['Z'] ("on ").data ("course 123 and course 456").data
    (by decide) (by decide)

/-- C1 as stated is false: the submission boundary validates only the
structure of the interpreter output, never its numeric ranges. The concrete
response `{stateUpdates: {rudder: 90, course: null, speed: null},
response: "aye aye"}` — rudder far outside `[-35, 35]` — passes validation
with HTTP 200, and the client then merges 90 into ShipState and prepends to
the command log, instead of aborting with `InvalidInterpretation`. -/
theorem rudder90_counterexample :
    routePOST true (some ⟨some "helm right 90"⟩)
        (some "Helm, right 90 degrees rudder")
        (some ⟨some ⟨some (Jval.num 90), some Jval.null, some Jval.null⟩,
          some "aye aye"⟩) =
      .ok ⟨⟨some (Jval.num 90), some Jval.null, some Jval.null⟩, "aye aye",
           "helm right 90", "Helm, right 90 degrees rudder"⟩ ∧
    (runProcessCommand ⟨⟨0, 0, 0⟩, "", [], "", false, []⟩ "helm right 90"
        (.http true ⟨none, some "Helm, right 90 degrees rudder",
          some ⟨some 90, none, none⟩, "aye aye"⟩) .ok).shipState.rudder = 90 ∧
    (runProcessCommand ⟨⟨0, 0, 0⟩, "", [], "", false, []⟩ "helm right 90"
        (.http true ⟨none, some "Helm, right 90 degrees rudder",
          some ⟨some 90, none, none⟩, "aye aye"⟩) .ok).commandLog =
      ["Helm, right 90 degrees rudder"] ∧
    ¬ (-35 ≤ (90 : Int) ∧ (90 : Int) ≤ 35) := by
  refine ⟨by decide, by decide, by decide, by decide⟩

/-- C1 amended: a structurally valid interpreter response carrying an
out-of-range numeric field is processed exactly like an in-range one — the
boundary performs no range validation and returns it with HTTP 200, and the
merge writes the out-of-range value into ShipState unchanged (neither
rejected nor clamped), for every rudder value whatsoever. -/
theorem rudder_out_of_range_merged :
    ∀ (r : Int) (s : ShipState) (resp corrected cmd : String),
      resp ≠ "" → cmd ≠ "" → corrected ≠ "" →
      routePOST true (some ⟨some cmd⟩) (some corrected)
          (some ⟨some ⟨some (Jval.num r), some Jval.null, some Jval.null⟩,
            some resp⟩) =
        .ok ⟨⟨some (Jval.num r), some Jval.null, some Jval.null⟩, resp, cmd,
             jsTrim corrected⟩ ∧
      mergeState s ⟨some r, none, none⟩ = ⟨r, s.course, s.speed⟩ := by
  intro r s resp corrected cmd hr hcmd hcorr
  constructor
  · simp [routePOST, validateAndFormat, applyCourseFormat, hr, hcmd, hcorr]
  · rfl

/-- Witness for C1 amended at rudder 90. -/
theorem rudder_out_of_range_merged_witness :
    routePOST true (some ⟨some "helm right 90"⟩) (some "Helm, right 90")
        (some ⟨some ⟨some (Jval.num 90), some Jval.null, some Jval.null⟩,
          some "aye"⟩) =
      .ok ⟨⟨some (Jval.num 90), some Jval.null, some Jval.null⟩, "aye",
           "helm right 90", jsTrim "Helm, right 90"⟩ ∧
    mergeState ⟨0, 0, 0⟩ ⟨some 90, none, none⟩ = ⟨90, 0, 0⟩ :=
  rudder_out_of_range_merged 90 ⟨0, 0, 0⟩ "aye" "Helm, right 90" "helm right 90"
    (by decide) (by decide) (by decide)

/-- C6 as stated is false on both of its own examples: `getSpeedText` has
no `emergency flank` bucket, so 110 displays `FLANK`; and the astern
telegraph line reuses the same ahead-derived thresholds on `|p|` instead of
the astern vocabulary table, so -75 displays `STANDARD` where the astern
table names `full` (the mismatch survives case normalization). -/
theorem speedBucket_counterexample :
    telegraphOrder (-75) = "ALL ASTERN STANDARD" ∧
    claimedSpeedName (-75) = "full" ∧
    getSpeedText 75 ≠ claimedSpeedName (-75) ∧
    (getSpeedText 75).data ≠ (claimedSpeedName (-75)).data.map Char.toUpper ∧
    getSpeedText 110 = "FLANK" ∧
    claimedSpeedName 110 = "emergency flank" ∧
    getSpeedText 110 ≠ claimedSpeedName 110 ∧
    (getSpeedText 110).data ≠ (claimedSpeedName 110).data.map Char.toUpper := by
  refine ⟨by decide, by decide, by decide, by decide, by decide, by decide,
    by decide, by decide⟩

/-- C6 amended: the displayed bucket name comes from the single threshold
table of `getSpeedText` (the ahead names without `emergency flank`,
descending thresholds 100, 90, 75, 67, 50, 33, 25, 10, default `STOP`),
applied to `|p|` for both ahead and astern orders; the chosen bucket is the
one with the highest threshold not exceeding `|p|`; in particular 110
displays `ALL AHEAD FLANK` and -75 displays `ALL ASTERN STANDARD`. -/
theorem speedBucket_amended :
    (∀ v : Int, getSpeedText v = firstLE SPEED_DISPLAY_TABLE v) ∧
    (∀ m : Nat, m < 111 →
        (getSpeedText (m : Int) = "STOP" ∧
            ∀ e ∈ SPEED_DISPLAY_TABLE, ¬ e.1 ≤ (m : Int)) ∨
          ∃ e ∈ SPEED_DISPLAY_TABLE, getSpeedText (m : Int) = e.2 ∧
            e.1 ≤ (m : Int) ∧
            ∀ f ∈ SPEED_DISPLAY_TABLE, f.1 ≤ (m : Int) → f.1 ≤ e.1) ∧
    (∀ p : Int, p < 0 → telegraphOrder p = "ALL ASTERN " ++ getSpeedText |p|) ∧
    (∀ p : Int, 0 < p → telegraphOrder p = "ALL AHEAD " ++ getSpeedText p) ∧
    telegraphOrder 110 = "ALL AHEAD FLANK" ∧
    telegraphOrder (-75) = "ALL ASTERN STANDARD" := by
  refine ⟨?_, by decide, ?_, ?_, by decide, by decide⟩
  · intro v
    simp only [getSpeedText, firstLE, SPEED_DISPLAY_TABLE, ge_iff_le]
  · intro p hp
    unfold telegraphOrder
    rw [if_neg (by omega), if_pos hp]
  · intro p hp
    unfold telegraphOrder
    rw [if_pos hp]

/-- Witness for C6 amended at `m = 75` (bucket STANDARD is the highest
threshold at most 75) and `p = -75`. -/
theorem speedBucket_amended_witness :
    ((getSpeedText ((75 : Nat) : Int) = "STOP" ∧
        ∀ e ∈ SPEED_DISPLAY_TABLE, ¬ e.1 ≤ ((75 : Nat) : Int)) ∨
      ∃ e ∈ SPEED_DISPLAY_TABLE, getSpeedText ((75 : Nat) : Int) = e.2 ∧
        e.1 ≤ ((75 : Nat) : Int) ∧
        ∀ f ∈ SPEED_DISPLAY_TABLE, f.1 ≤ ((75 : Nat) : Int) → f.1 ≤ e.1) ∧
    telegraphOrder (-75) = "ALL ASTERN " ++ getSpeedText |(-75 : Int)| :=
  ⟨speedBucket_amended.2.1 75 (by decide),
   speedBucket_amended.2.2.1 (-75) (by decide)⟩

/-- C5 as stated is false: the dispatcher never falls back on failure.
With the primary credential configured and the primary channel failing
(HTTP 500 here), the dispatch is an error even though the on-device
speech-synthesis channel is available and a preferred voice exists; the
secondary channel is not attempted. -/
theorem audioFallback_counterexample :
    playAudioResponse false true "aye" (.httpError 500) ["Daniel"] = .failed ∧
    AudioOutcome.failed ≠ AudioOutcome.playedSecondary "aye" (some "Daniel") ∧
    isPreferredVoice "Daniel" = true := by
  refine ⟨rfl, by decide, by decide⟩

/-- C5 amended: when not muted, the dispatcher selects a channel by
configuration, not by failure. With the primary credential configured it
uses only the primary high-fidelity channel: success plays it, and any
primary failure (HTTP failure, empty payload, decode failure) makes the
dispatch an error with no fallback. Only when the credential is absent does
it use the on-device speech-synthesis channel, selecting the first
available voice matching the quality heuristics (or none). -/
theorem audioDispatch_claim :
    (∀ (c : Bool) (text : String) (p : PrimaryResult) (vs : List String),
        playAudioResponse true c text p vs = .skipped) ∧
    (∀ (text : String) (vs : List String),
        playAudioResponse false true text .ok vs = .playedPrimary text) ∧
    (∀ (text : String) (p : PrimaryResult) (vs : List String), p ≠ .ok →
        playAudioResponse false true text p vs = .failed) ∧
    (∀ (text : String) (p : PrimaryResult) (vs : List String),
        playAudioResponse false false text p vs =
          .playedSecondary text (vs.find? isPreferredVoice)) ∧
    (∀ (vs : List String) (v : String),
        vs.find? isPreferredVoice = some v → isPreferredVoice v = true) := by
  refine ⟨fun c text p vs => rfl, fun text vs => rfl, ?_, fun text p vs => rfl, ?_⟩
  · intro text p vs hp
    cases p with
    | ok => exact absurd rfl hp
    | httpError s => rfl
    | emptyPayload => rfl
    | decodeError => rfl
  · intro vs v h
    exact List.find?_some h

/-- Witness for C5 amended: a failing primary with the credential
configured is an error. -/
theorem audioDispatch_claim_witness :
    playAudioResponse false true "aye" (.httpError 500) ["Alex"] = .failed :=
  audioDispatch_claim.2.2.1 "aye" (.httpError 500) ["Alex"] (by decide)

end NavalHelm
